import Mathlib

/-!
Verification of the SHL standings scraper (src/scraper.py).

Shallow embedding notes:
* HTML markup is embedded after the document-structure step: an input is the
  list of tables that a `find_all` for table elements returns, a table is its
  list of rows, a row its list of cell texts.  Cell text extraction with
  stripping is modelled by `pyStrip`.
* Python integers are `Int`; Python `int(s)` is `pyInt?` (optional sign and
  decimal digits after stripping; a failure is `none` and models the
  `ValueError` that the row loop catches).
* Python floats appear only in the derived fields; they are modelled as exact
  rationals, with `round(x, 2)` modelled as rounding to the nearest
  hundredth.  No theorem below depends on the numeric value of a derived
  field, only on which fields the code reads and writes.
* JSON documents are the inductive `JsonVal`; the persisted file is a
  `StoredContent` (missing, unreadable, undecodable, or a decoded JSON
  value).  `json.dump` followed by `json.load` is the identity at this level.
* Fallible code returns `Except`/`Option`; an uncaught Python exception is an
  `Except.error` carrying a `PyFatal`.
-/

namespace Scraper

/-! ### Data model -/

/-- One team's standing: the row position, the team name, the ten raw
counters scraped from the table, and the four derived fields the parser
computes (src/scraper.py lines 115-135). -/
structure TeamRecord where
  position : Nat
  team : String
  games_played : Int
  wins : Int
  ties : Int
  losses : Int
  ot_wins : Int
  ot_losses : Int
  goals_for : Int
  goals_against : Int
  goal_diff : Int
  points : Int
  win_percentage : ℚ
  points_per_game : ℚ
  goals_per_game : ℚ
  games_remaining : Int
deriving DecidableEq

/-- The raw data of one table row before the position and the derived fields
are attached: the team cell and the ten numeric cells. -/
structure RowData where
  team : String
  games_played : Int
  wins : Int
  ties : Int
  losses : Int
  ot_wins : Int
  ot_losses : Int
  goals_for : Int
  goals_against : Int
  goal_diff : Int
  points : Int
deriving DecidableEq

/-- Season length constant, `TOTAL_GAMES_IN_SEASON = 52` (line 22). -/
def TOTAL_GAMES_IN_SEASON : Int := 52

/-! ### Table parser (`parse_standings`, lines 74-151) -/

/-- Model of Python `str.strip()` / `get_text(strip=True)`: drop surrounding
whitespace.  (Python also strips some further Unicode whitespace; no claim
depends on which characters count as whitespace.) -/
def pyStrip (s : String) : String :=
  ⟨(((s.data.dropWhile Char.isWhitespace).reverse).dropWhile Char.isWhitespace).reverse⟩

/-- Value of a nonempty all-digit character list, else `none`. -/
def digitsVal? (cs : List Char) : Option Nat :=
  if cs.isEmpty then none
  else
    cs.foldl
      (fun acc c =>
        match acc with
        | none => none
        | some a => if c.isDigit then some (a * 10 + (c.toNat - 48)) else none)
      (some 0)

/-- Model of Python `int(s)`: strip, optional sign, decimal digits.
`none` models the `ValueError` the caller catches. -/
def pyInt? (s : String) : Option Int :=
  match (pyStrip s).data with
  | '-' :: rest => (digitsVal? rest).map (fun n => -(n : Int))
  | '+' :: rest => (digitsVal? rest).map (fun n => (n : Int))
  | cs => (digitsVal? cs).map (fun n => (n : Int))

/-- Model of Python `round(x, 2)`: round to the nearest hundredth.  (CPython
rounds floats with ties-to-even; no theorem below depends on the value.) -/
def roundQ2 (x : ℚ) : ℚ := (round (x * 100) : ℤ) / 100

/-- The text of cell `i` of a row, stripped (`cells[i].get_text(strip=True)`,
guarded in the source by the length check on the row). -/
def cellText (cells : List String) (i : Nat) : String := pyStrip (cells.getD i (""))

/-- The try-block of the row loop (lines 114-128): read the team cell and the
ten numeric cells; any failed integer conversion aborts the row. -/
def parseRowData (cells : List String) : Option RowData := do
  let team := cellText cells 0
  let gp ← pyInt? (cellText cells 1)
  let w ← pyInt? (cellText cells 2)
  let t ← pyInt? (cellText cells 3)
  let l ← pyInt? (cellText cells 4)
  let otw ← pyInt? (cellText cells 5)
  let otl ← pyInt? (cellText cells 6)
  let gf ← pyInt? (cellText cells 7)
  let ga ← pyInt? (cellText cells 8)
  let gd ← pyInt? (cellText cells 9)
  let pts ← pyInt? (cellText cells 10)
  pure ⟨team, gp, w, t, l, otw, otl, gf, ga, gd, pts⟩

/-- Attach the loop position and the calculated fields (lines 116, 130-135). -/
def finishRecord (position : Nat) (d : RowData) : TeamRecord :=
  { position := position
    team := d.team
    games_played := d.games_played
    wins := d.wins
    ties := d.ties
    losses := d.losses
    ot_wins := d.ot_wins
    ot_losses := d.ot_losses
    goals_for := d.goals_for
    goals_against := d.goals_against
    goal_diff := d.goal_diff
    points := d.points
    win_percentage :=
      roundQ2 (if 0 < d.games_played
        then (d.wins : ℚ) / (d.games_played : ℚ) * 100 else 0)
    points_per_game :=
      roundQ2 (if 0 < d.games_played
        then (d.points : ℚ) / (d.games_played : ℚ) else 0)
    goals_per_game :=
      roundQ2 (if 0 < d.games_played
        then (d.goals_for : ℚ) / (d.games_played : ℚ) else 0)
    games_remaining := TOTAL_GAMES_IN_SEASON - d.games_played }

/-- The data-row loop (lines 105-140): `enumerate(rows[1:], start=1)`.  The
position counter advances on every row, also on skipped ones; a row with
fewer than 11 cells or with a failing integer conversion is skipped. -/
def parseDataRows : Nat → List (List String) → List TeamRecord
  | _, [] => []
  | position, row :: rest =>
    if row.length < 11 then parseDataRows (position + 1) rest
    else
      match parseRowData row with
      | some d => finishRecord position d :: parseDataRows (position + 1) rest
      | none => parseDataRows (position + 1) rest

/-- The three fatal parser outcomes; the source prints a distinct error
message and returns `None` for each (lines 90-92, 98-100, 142-144). -/
inductive ParseError where
  | noTableFound
  | insufficientRows
  | noValidRecords
deriving DecidableEq

/-- `parse_standings` (lines 74-151): first table, header row skipped, rows
parsed by `parseDataRows`. -/
def parse_standings (tables : List (List (List String))) :
    Except ParseError (List TeamRecord) :=
  match tables with
  | [] => .error .noTableFound
  | table :: _ =>
    if table.length < 2 then .error .insufficientRows
    else
      let standings := parseDataRows 1 (table.drop 1)
      if standings.isEmpty then .error .noValidRecords
      else .ok standings

/-- Whether a data row yields a record: at least 11 cells and all ten
numeric cells convert. -/
def rowOk (row : List String) : Bool :=
  !(row.length < 11) && (parseRowData row).isSome

/-- The enumeration indices (from `start`) of the rows that yield a record:
the positions the loop of lines 105-140 hands out. -/
def validIdx : Nat → List (List String) → List Nat
  | _, [] => []
  | i, row :: rest =>
    if rowOk row then i :: validIdx (i + 1) rest else validIdx (i + 1) rest

/-- The row data of the rows that yield a record, in source order. -/
def validRows (rows : List (List String)) : List RowData :=
  rows.filterMap (fun row => if row.length < 11 then none else parseRowData row)

/-! ### Snapshot comparator (`compare_standings`, lines 176-230) -/

/-- One change message.  The source produces formatted strings; the
constructors carry the data those strings are built from.  Membership
messages carry a `Finset`, as the source joins a Python set whose iteration
order is unspecified. -/
inductive ChangeMsg where
  | countChange (oldCount newCount : Nat)
  | newTeams (names : Finset String)
  | removedTeams (names : Finset String)
  | posChange (team : String) (oldPos newPos : Nat)
  | statChange (team : String) (diffs : List (String × Int × Int))
deriving DecidableEq

/-- The team names of a record list, in order. -/
def teamNames (l : List TeamRecord) : List String := l.map TeamRecord.team

/-- Model of `{team['team']: team for team in old}[name]`-style lookup: a
Python dict comprehension keeps the last record written under each name. -/
def byTeam : List TeamRecord → String → Option TeamRecord
  | [], _ => none
  | t :: rest, name =>
    match byTeam rest name with
    | some r => some r
    | none => if t.team = name then some t else none

/-- The ten raw counters, with the dictionary keys the source iterates
(lines 222-223), in source order. -/
def rawFields : List (String × (TeamRecord → Int)) :=
  [(("games_played"), TeamRecord.games_played),
   (("wins"), TeamRecord.wins),
   (("ties"), TeamRecord.ties),
   (("losses"), TeamRecord.losses),
   (("ot_wins"), TeamRecord.ot_wins),
   (("ot_losses"), TeamRecord.ot_losses),
   (("goals_for"), TeamRecord.goals_for),
   (("goals_against"), TeamRecord.goals_against),
   (("goal_diff"), TeamRecord.goal_diff),
   (("points"), TeamRecord.points)]

/-- The differing raw counters of two records, as (key, old, new)
(lines 221-225).  Derived fields are not in `rawFields`, so they are never
compared. -/
def statDiffs (o r : TeamRecord) : List (String × Int × Int) :=
  rawFields.filterMap
    (fun kf => if kf.2 o ≠ kf.2 r then some (kf.1, kf.2 o, kf.2 r) else none)

/-- The messages one team of the new list contributes (lines 216-228):
a position-change message, then a combined stat-change message. -/
def teamDiff (o r : TeamRecord) : List ChangeMsg :=
  (if o.position ≠ r.position
    then [ChangeMsg.posChange r.team o.position r.position] else [])
    ++ (if (statDiffs o r).isEmpty then []
        else [ChangeMsg.statChange r.team (statDiffs o r)])

/-- The per-team loop of lines 212-228, iterating the new list in order and
looking each name up in the old side's dict.  The `none` case is unreachable
from `compare_standings`, which only runs this loop when the two name sets
coincide (in Python a missing name would raise a `KeyError`). -/
def teamChanges (oldBy : String → Option TeamRecord) : List TeamRecord → List ChangeMsg
  | [] => []
  | r :: rest =>
    (match oldBy r.team with
     | some o => teamDiff o r
     | none => []) ++ teamChanges oldBy rest

/-- Teams present in the new list and absent from the old one (line 203). -/
def addedSet (old new : List TeamRecord) : Finset String :=
  (teamNames new).toFinset \ (teamNames old).toFinset

/-- Teams present in the old list and absent from the new one (line 204). -/
def removedSet (old new : List TeamRecord) : Finset String :=
  (teamNames old).toFinset \ (teamNames new).toFinset

/-- `compare_standings` (lines 176-230): count check, membership check, then
the per-team position and raw-stat comparison. -/
def compare_standings (old new : List TeamRecord) : Bool × List ChangeMsg :=
  if old.length ≠ new.length then
    (true, [ChangeMsg.countChange old.length new.length])
  else if (teamNames old).toFinset ≠ (teamNames new).toFinset then
    (true,
      (if addedSet old new ≠ ∅ then [ChangeMsg.newTeams (addedSet old new)] else [])
        ++ (if removedSet old new ≠ ∅
            then [ChangeMsg.removedTeams (removedSet old new)] else []))
  else
    let changes := teamChanges (byTeam old) new
    (decide (0 < changes.length), changes)

/-! ### Snapshot store (`load_existing_standings` lines 154-173,
`save_to_json` lines 233-268) -/

/-- JSON values; Python numbers are modelled as exact rationals. -/
inductive JsonVal where
  | null
  | bool (b : Bool)
  | num (q : ℚ)
  | str (s : String)
  | arr (elems : List JsonVal)
  | obj (fields : List (String × JsonVal))

/-- An uncaught Python exception of the store. -/
inductive PyFatal where
  | attributeError
deriving DecidableEq

/-- What the snapshot file can hold: absent, unreadable (`IOError`), not
decodable as JSON (`json.JSONDecodeError`), or a decoded JSON value. -/
inductive StoredContent where
  | missing
  | unreadable
  | invalidJson
  | validJson (j : JsonVal)

/-- Model of `dict.get` on a decoded JSON object: the value stored under the
key, with the last duplicate key winning as in Python's JSON decoder, and
`none` for an absent key. -/
def jsonGet : List (String × JsonVal) → String → Option JsonVal
  | [], _ => none
  | kv :: rest, key =>
    match jsonGet rest key with
    | some v => some v
    | none => if kv.1 = key then some kv.2 else none

/-- `data.get('standings')` seen from the caller: a JSON `null` decodes to
Python `None`, which the caller cannot tell apart from an absent key. -/
def pyGet (fields : List (String × JsonVal)) (key : String) : Option JsonVal :=
  match jsonGet fields key with
  | some JsonVal.null => none
  | r => r

/-- `load_existing_standings` (lines 154-173).  A missing file returns
`None`; `IOError` and `json.JSONDecodeError` are caught and return `None`
with a warning; on any other decoded value than a JSON object,
`data.get('standings')` raises an uncaught `AttributeError`. -/
def load_existing_standings : StoredContent → Except PyFatal (Option JsonVal)
  | .missing => .ok none
  | .unreadable => .ok none
  | .invalidJson => .ok none
  | .validJson j =>
    match j with
    | .obj fields => .ok (pyGet fields ("standings"))
    | _ => .error .attributeError

/-- One record as the JSON object `save_to_json` serializes (the dict built
in lines 115-135, dumped in line 258). -/
def recordToJson (r : TeamRecord) : JsonVal :=
  .obj [(("position"), .num (r.position : ℚ)),
        (("team"), .str r.team),
        (("games_played"), .num (r.games_played : ℚ)),
        (("wins"), .num (r.wins : ℚ)),
        (("ties"), .num (r.ties : ℚ)),
        (("losses"), .num (r.losses : ℚ)),
        (("ot_wins"), .num (r.ot_wins : ℚ)),
        (("ot_losses"), .num (r.ot_losses : ℚ)),
        (("goals_for"), .num (r.goals_for : ℚ)),
        (("goals_against"), .num (r.goals_against : ℚ)),
        (("goal_diff"), .num (r.goal_diff : ℚ)),
        (("points"), .num (r.points : ℚ)),
        (("win_percentage"), .num r.win_percentage),
        (("points_per_game"), .num r.points_per_game),
        (("goals_per_game"), .num r.goals_per_game),
        (("games_remaining"), .num (r.games_remaining : ℚ))]

/-- `save_to_json` (lines 233-268) on its success path: the file afterwards
holds exactly the dumped document (dump then load is the identity at the
`JsonVal` level).  The timestamp and season strings come from the clock and
are passed in as parameters. -/
def save_to_json (data : List TeamRecord) (timestamp season : String) :
    StoredContent :=
  .validJson (.obj
    [(("api_version"), .str ("1.0.0")),
     (("timestamp"), .str timestamp),
     (("season"), .str season),
     (("league"), .str ("SHL")),
     (("table_type"), .str ("Total")),
     (("data_source"), .str ("https://sportstatistik.nu/hockey/shl/tabell")),
     (("total_games_in_season"), .num 52),
     (("teams_count"), .num (data.length : ℚ)),
     (("standings"), .arr (data.map recordToJson))])

/-! ### Concrete inputs used by witnesses and counterexamples -/

/-- A well-formed 11-cell data row for the given team name. -/
def row11 (name : String) : List String :=
  [name, "10", "5", "1", "4", "2", "1", "30", "20", "10", "18"]

/-- A record as the parser builds it, for witnesses. -/
def demoRecord (name : String) (pos : Nat) : TeamRecord :=
  finishRecord pos ⟨name, 10, 6, 1, 3, 2, 1, 30, 20, 10, 20⟩

/-! ### Helper lemmas -/

theorem teamNames_cons (t : TeamRecord) (rest : List TeamRecord) :
    teamNames (t :: rest) = t.team :: teamNames rest := rfl

theorem byTeam_eq_none {l : List TeamRecord} {name : String}
    (h : name ∉ teamNames l) : byTeam l name = none := by
  induction l with
  | nil => rfl
  | cons t rest ih =>
    rw [teamNames_cons, List.mem_cons] at h
    push_neg at h
    rw [byTeam, ih h.2, if_neg (fun e => h.1 e.symm)]

theorem byTeam_eq_self {l : List TeamRecord} (h : (teamNames l).Nodup)
    {r : TeamRecord} (hr : r ∈ l) : byTeam l r.team = some r := by
  induction l with
  | nil => cases hr
  | cons t rest ih =>
    rw [teamNames_cons, List.nodup_cons] at h
    rw [byTeam]
    rcases List.mem_cons.mp hr with rfl | hr'
    · rw [byTeam_eq_none h.1, if_pos rfl]
    · rw [ih h.2 hr']

theorem statDiffs_self (r : TeamRecord) : statDiffs r r = [] := by
  simp [statDiffs]

theorem teamChanges_eq_nil {f : String → Option TeamRecord} {l : List TeamRecord}
    (h : ∀ r ∈ l, ∃ o, f r.team = some o ∧ o.position = r.position
      ∧ statDiffs o r = []) :
    teamChanges f l = [] := by
  induction l with
  | nil => rfl
  | cons r rest ih =>
    obtain ⟨o, hf, hp, hs⟩ := h r (List.mem_cons_self r rest)
    rw [teamChanges, hf, ih (fun x hx => h x (List.mem_cons_of_mem r hx))]
    simp [teamDiff, hp, hs]

/-! ### Claims about the comparator -/

/-- C4: comparison is idempotent: for a valid snapshot X (one satisfying the
data-model invariant that team names are unique within the sequence),
`compare_standings X X` reports no changes and an empty message list. -/
theorem compare_self_no_changes (X : List TeamRecord)
    (h : (teamNames X).Nodup) : compare_standings X X = (false, []) := by
  have hch : teamChanges (byTeam X) X = [] :=
    teamChanges_eq_nil (fun r hr => ⟨r, byTeam_eq_self h hr, rfl, statDiffs_self r⟩)
  simp [compare_standings, hch]

/-- Witness for C4 at a concrete one-team snapshot. -/
theorem compare_self_no_changes_witness :
    compare_standings [demoRecord ("Lulea") 1] [demoRecord ("Lulea") 1]
      = (false, []) :=
  compare_self_no_changes [demoRecord ("Lulea") 1] (by decide)

/-- C5: when the two lists have different lengths, the comparator reports a
change with exactly the one count-change message and performs no per-team
comparison, whatever the records hold. -/
theorem compare_count_change (old new : List TeamRecord)
    (h : old.length ≠ new.length) :
    compare_standings old new
      = (true, [ChangeMsg.countChange old.length new.length]) := by
  simp [compare_standings, h]

/-- Witness for C5: an empty and a one-team list. -/
theorem compare_count_change_witness :
    compare_standings [] [demoRecord ("Lulea") 1]
      = (true, [ChangeMsg.countChange 0 1]) :=
  compare_count_change [] [demoRecord ("Lulea") 1] (by decide)

/-- C6: equal lengths but different team-name sets: the comparator reports a
change whose messages are exactly the membership messages (the added-names
message when some name was added, then the removed-names message when some
name was removed), at least one of them is present, and no position or stat
message occurs. -/
theorem compare_membership_change (old new : List TeamRecord)
    (hlen : old.length = new.length)
    (hne : (teamNames old).toFinset ≠ (teamNames new).toFinset) :
    compare_standings old new
        = (true,
          (if addedSet old new ≠ ∅
            then [ChangeMsg.newTeams (addedSet old new)] else [])
            ++ (if removedSet old new ≠ ∅
                then [ChangeMsg.removedTeams (removedSet old new)] else []))
      ∧ (compare_standings old new).2 ≠ []
      ∧ ∀ m ∈ (compare_standings old new).2,
          (∃ s, m = ChangeMsg.newTeams s) ∨ ∃ s, m = ChangeMsg.removedTeams s := by
  have hmsgs : compare_standings old new
      = (true,
        (if addedSet old new ≠ ∅
          then [ChangeMsg.newTeams (addedSet old new)] else [])
          ++ (if removedSet old new ≠ ∅
              then [ChangeMsg.removedTeams (removedSet old new)] else [])) := by
    simp [compare_standings, hlen, hne]
  have hone : addedSet old new ≠ ∅ ∨ removedSet old new ≠ ∅ := by
    by_contra hc
    push_neg at hc
    apply hne
    apply le_antisymm
    · exact Finset.sdiff_eq_empty_iff_subset.mp hc.2
    · exact Finset.sdiff_eq_empty_iff_subset.mp hc.1
  refine ⟨hmsgs, ?_, ?_⟩
  · rw [hmsgs]
    rcases hone with h1 | h1
    · simp [h1]
    · simp [h1]
  · rw [hmsgs]
    intro m hm
    rcases List.mem_append.mp hm with h | h
    · left
      rcases Decidable.em (addedSet old new ≠ ∅) with he | he
      · rw [if_pos he] at h
        exact ⟨addedSet old new, (List.mem_singleton.mp h)⟩
      · rw [if_neg he] at h
        cases h
    · right
      rcases Decidable.em (removedSet old new ≠ ∅) with he | he
      · rw [if_pos he] at h
        exact ⟨removedSet old new, (List.mem_singleton.mp h)⟩
      · rw [if_neg he] at h
        cases h

/-- Witness for C6: [A, B, C] against [A, B, D]. -/
theorem compare_membership_change_witness :
    compare_standings
        [demoRecord ("A") 1, demoRecord ("B") 2, demoRecord ("C") 3]
        [demoRecord ("A") 1, demoRecord ("B") 2, demoRecord ("D") 3]
        = (true,
          (if addedSet
                [demoRecord ("A") 1, demoRecord ("B") 2, demoRecord ("C") 3]
                [demoRecord ("A") 1, demoRecord ("B") 2, demoRecord ("D") 3] ≠ ∅
            then [ChangeMsg.newTeams (addedSet
                [demoRecord ("A") 1, demoRecord ("B") 2, demoRecord ("C") 3]
                [demoRecord ("A") 1, demoRecord ("B") 2, demoRecord ("D") 3])]
            else [])
            ++ (if removedSet
                  [demoRecord ("A") 1, demoRecord ("B") 2, demoRecord ("C") 3]
                  [demoRecord ("A") 1, demoRecord ("B") 2, demoRecord ("D") 3] ≠ ∅
                then [ChangeMsg.removedTeams (removedSet
                  [demoRecord ("A") 1, demoRecord ("B") 2, demoRecord ("C") 3]
                  [demoRecord ("A") 1, demoRecord ("B") 2, demoRecord ("D") 3])]
                else []))
      ∧ (compare_standings
          [demoRecord ("A") 1, demoRecord ("B") 2, demoRecord ("C") 3]
          [demoRecord ("A") 1, demoRecord ("B") 2, demoRecord ("D") 3]).2 ≠ []
      ∧ ∀ m ∈ (compare_standings
          [demoRecord ("A") 1, demoRecord ("B") 2, demoRecord ("C") 3]
          [demoRecord ("A") 1, demoRecord ("B") 2, demoRecord ("D") 3]).2,
          (∃ s, m = ChangeMsg.newTeams s) ∨ ∃ s, m = ChangeMsg.removedTeams s :=
  compare_membership_change
    [demoRecord ("A") 1, demoRecord ("B") 2, demoRecord ("C") 3]
    [demoRecord ("A") 1, demoRecord ("B") 2, demoRecord ("D") 3]
    rfl (by decide)

/-- Two records agree on all ten raw counters (the fields of lines 222-223,
not the derived fields). -/
def sameRawStats (o r : TeamRecord) : Prop :=
  o.games_played = r.games_played ∧ o.wins = r.wins ∧ o.ties = r.ties
    ∧ o.losses = r.losses ∧ o.ot_wins = r.ot_wins ∧ o.ot_losses = r.ot_losses
    ∧ o.goals_for = r.goals_for ∧ o.goals_against = r.goals_against
    ∧ o.goal_diff = r.goal_diff ∧ o.points = r.points

theorem statDiffs_eq_nil {o r : TeamRecord} (h : sameRawStats o r) :
    statDiffs o r = [] := by
  obtain ⟨h1, h2, h3, h4, h5, h6, h7, h8, h9, h10⟩ := h
  simp [statDiffs, rawFields, h1, h2, h3, h4, h5, h6, h7, h8, h9, h10]

/-- C7: with equal lengths, identical team-name sets, unique names, and
every team carrying the same position and the same ten raw counters on both
sides, the comparator reports no changes — the derived fields
(win_percentage, points_per_game, goals_per_game, games_remaining) are not
constrained by the hypotheses and may differ freely. -/
theorem compare_ignores_derived_fields (old new : List TeamRecord)
    (hlen : old.length = new.length)
    (hset : (teamNames old).toFinset = (teamNames new).toFinset)
    (hnd : (teamNames old).Nodup)
    (h : ∀ r ∈ new, ∃ o ∈ old, o.team = r.team ∧ o.position = r.position
      ∧ sameRawStats o r) :
    compare_standings old new = (false, []) := by
  have hch : teamChanges (byTeam old) new = [] := by
    apply teamChanges_eq_nil
    intro r hr
    obtain ⟨o, ho, hteam, hpos, hraw⟩ := h r hr
    refine ⟨o, ?_, hpos, statDiffs_eq_nil hraw⟩
    rw [← hteam]
    exact byTeam_eq_self hnd ho
  simp [compare_standings, hlen, hset, hch]

/-- Witness for C7: the new side's win_percentage differs from the old
side's, yet no change is reported. -/
theorem compare_ignores_derived_fields_witness :
    compare_standings [demoRecord ("Lulea") 1]
        [{ demoRecord ("Lulea") 1 with win_percentage := 999 }]
      = (false, []) :=
  compare_ignores_derived_fields [demoRecord ("Lulea") 1]
    [{ demoRecord ("Lulea") 1 with win_percentage := 999 }]
    rfl rfl (by decide)
    (fun r hr => ⟨demoRecord ("Lulea") 1, by simp,
      by rw [List.mem_singleton.mp hr],
      by rw [List.mem_singleton.mp hr],
      by rw [List.mem_singleton.mp hr]
         exact ⟨rfl, rfl, rfl, rfl, rfl, rfl, rfl, rfl, rfl, rfl⟩⟩)

/-! ### Parser lemmas -/

theorem finishRecord_position (p : Nat) (d : RowData) :
    (finishRecord p d).position = p := rfl

theorem finishRecord_team (p : Nat) (d : RowData) :
    (finishRecord p d).team = d.team := rfl

theorem parseDataRows_map_position (i : Nat) (rows : List (List String)) :
    (parseDataRows i rows).map TeamRecord.position = validIdx i rows := by
  induction rows generalizing i with
  | nil => rfl
  | cons row rest ih =>
    rw [parseDataRows, validIdx]
    by_cases h : row.length < 11
    · simp [h, rowOk, ih]
    · cases hp : parseRowData row with
      | some d => simp [h, hp, rowOk, ih, finishRecord_position]
      | none => simp [h, hp, rowOk, ih]

theorem parseDataRows_map_team (i : Nat) (rows : List (List String)) :
    (parseDataRows i rows).map TeamRecord.team
      = (validRows rows).map RowData.team := by
  induction rows generalizing i with
  | nil => rfl
  | cons row rest ih =>
    rw [parseDataRows, validRows, List.filterMap_cons]
    by_cases h : row.length < 11
    · simp [h, ih, validRows]
    · cases hp : parseRowData row with
      | some d => simp [h, hp, ih, validRows, finishRecord_team]
      | none => simp [h, hp, ih, validRows]

theorem validIdx_sublist (i : Nat) (rows : List (List String)) :
    (validIdx i rows).Sublist (List.range' i rows.length) := by
  induction rows generalizing i with
  | nil => simp [validIdx]
  | cons row rest ih =>
    rw [validIdx, List.length_cons, List.range'_succ]
    by_cases h : rowOk row
    · rw [if_pos h]
      exact List.Sublist.cons₂ i (ih (i + 1))
    · rw [if_neg h]
      exact List.Sublist.cons i (ih (i + 1))

theorem parse_standings_cons (t : List (List String))
    (rest : List (List (List String))) :
    parse_standings (t :: rest)
      = if t.length < 2 then .error .insufficientRows
        else if (parseDataRows 1 (t.drop 1)).isEmpty then .error .noValidRecords
        else .ok (parseDataRows 1 (t.drop 1)) := rfl

theorem parse_standings_ok_iff (t : List (List String))
    (rest : List (List (List String))) (recs : List TeamRecord) :
    parse_standings (t :: rest) = .ok recs
      ↔ ¬ t.length < 2 ∧ recs = parseDataRows 1 (t.drop 1) ∧ recs ≠ [] := by
  rw [parse_standings_cons]
  by_cases h2 : t.length < 2
  · rw [if_pos h2]
    constructor
    · intro h
      exact nomatch h
    · rintro ⟨hn, -, -⟩
      exact absurd h2 hn
  · rw [if_neg h2]
    by_cases he : (parseDataRows 1 (t.drop 1)).isEmpty
    · rw [if_pos he]
      rw [List.isEmpty_iff] at he
      constructor
      · intro h
        exact nomatch h
      · rintro ⟨-, rfl, hne⟩
        exact absurd he hne
    · rw [if_neg he]
      rw [List.isEmpty_iff] at he
      constructor
      · intro h
        injection h with h'
        exact ⟨h2, h'.symm, fun e => he (by rw [h']; exact e)⟩
      · rintro ⟨-, rfl, -⟩
        rfl

/-! ### Claims about the parser -/

/-- C8: the parser fails with noTableFound exactly when there is no table,
with insufficientRows exactly when the first table has fewer than 2 rows,
with noValidRecords exactly when no data row yields a record, and otherwise
succeeds with a nonempty record list. -/
theorem parse_error_conditions (tables : List (List (List String))) :
    (parse_standings tables = .error .noTableFound ↔ tables = [])
    ∧ (parse_standings tables = .error .insufficientRows
        ↔ ∃ t rest, tables = t :: rest ∧ t.length < 2)
    ∧ (parse_standings tables = .error .noValidRecords
        ↔ ∃ t rest, tables = t :: rest ∧ 2 ≤ t.length
            ∧ parseDataRows 1 (t.drop 1) = [])
    ∧ ∀ recs, parse_standings tables = .ok recs → recs ≠ [] := by
  cases tables with
  | nil =>
    refine ⟨by simp [parse_standings], by simp [parse_standings],
      by simp [parse_standings], ?_⟩
    intro recs h
    simp [parse_standings] at h
  | cons t rest =>
    rw [parse_standings_cons]
    by_cases h2 : t.length < 2
    · have h2' : ¬ 2 ≤ t.length := Nat.not_le.mpr h2
      rw [if_pos h2]
      refine ⟨by simp, by simp [h2], by simp [-List.drop_one, h2'], ?_⟩
      intro recs h
      exact nomatch h
    · rw [if_neg h2]
      by_cases he : (parseDataRows 1 (t.drop 1)).isEmpty
      · rw [if_pos he]
        rw [List.isEmpty_iff] at he
        have h2' : 2 ≤ t.length := Nat.not_lt.mp h2
        refine ⟨by simp, by simp [h2], by simp [-List.drop_one, h2', he], ?_⟩
        intro recs h
        exact nomatch h
      · rw [if_neg he]
        rw [List.isEmpty_iff] at he
        refine ⟨?_, ?_, ?_, ?_⟩
        · constructor
          · intro h
            exact nomatch h
          · intro h
            exact nomatch h
        · constructor
          · intro h
            exact nomatch h
          · rintro ⟨t', rest', he2, hlt⟩
            injection he2 with ha hb
            subst ha
            exact absurd hlt h2
        · constructor
          · intro h
            exact nomatch h
          · rintro ⟨t', rest', he2, -, hpd⟩
            injection he2 with ha hb
            subst ha
            exact absurd hpd he
        · intro recs h
          injection h with h'
          exact fun e => he (by rw [h']; exact e)

/-- C10: on every successful parse, the positions of the returned records
are strictly increasing, each is at least 1 and at most the number of data
rows of the table, and the i-th record's position is bounded above by the
enumeration index of its source data row — the i-th entry of `validIdx`,
the index list of the rows that parse (positions never repeat and never
decrease, also across skipped rows). -/
theorem parse_positions_increasing (t : List (List String))
    (rest : List (List (List String))) (recs : List TeamRecord)
    (h : parse_standings (t :: rest) = .ok recs) :
    (recs.map TeamRecord.position).Pairwise (· < ·)
    ∧ (∀ p ∈ recs.map TeamRecord.position, 1 ≤ p ∧ p ≤ t.length - 1)
    ∧ recs.length = (validIdx 1 (t.drop 1)).length
    ∧ ∀ i, i < recs.length →
        (recs.map TeamRecord.position).getD i 0
          ≤ (validIdx 1 (t.drop 1)).getD i 0 := by
  obtain ⟨-, hrecs, -⟩ := (parse_standings_ok_iff t rest recs).mp h
  subst hrecs
  have hmap := parseDataRows_map_position 1 (t.drop 1)
  rw [hmap]
  have hsub := validIdx_sublist 1 (t.drop 1)
  refine ⟨List.Pairwise.sublist hsub (List.pairwise_lt_range' 1 (t.drop 1).length),
    ?_, ?_, ?_⟩
  · intro p hp
    have := List.mem_range'_1.mp (hsub.subset hp)
    rw [List.length_drop] at this
    omega
  · calc (parseDataRows 1 (t.drop 1)).length
        = ((parseDataRows 1 (t.drop 1)).map TeamRecord.position).length :=
          (List.length_map _ _).symm
      _ = (validIdx 1 (t.drop 1)).length := by rw [hmap]
  · intro i hi
    exact le_refl _

/-- A malformed data row with only 9 cells. -/
def badRow9 : List String :=
  [("X"), ("1"), ("1"), ("1"), ("1"), ("1"), ("1"), ("1"), ("1")]

/-- A table whose third data row is malformed: header, A, B, bad, C. -/
def gapTable : List (List String) :=
  [[], row11 ("A"), row11 ("B"), badRow9, row11 ("C")]

/-- Witness for C10 on `gapTable`. -/
theorem parse_positions_increasing_witness :
    ((parseDataRows 1 (gapTable.drop 1)).map TeamRecord.position).Pairwise (· < ·)
    ∧ (∀ p ∈ (parseDataRows 1 (gapTable.drop 1)).map TeamRecord.position,
        1 ≤ p ∧ p ≤ gapTable.length - 1)
    ∧ (parseDataRows 1 (gapTable.drop 1)).length
        = (validIdx 1 (gapTable.drop 1)).length
    ∧ ∀ i, i < (parseDataRows 1 (gapTable.drop 1)).length →
        ((parseDataRows 1 (gapTable.drop 1)).map TeamRecord.position).getD i 0
          ≤ (validIdx 1 (gapTable.drop 1)).getD i 0 :=
  parse_positions_increasing gapTable [] (parseDataRows 1 (gapTable.drop 1)) rfl

/-- C1 (amended): on every successful parse, each returned record's position
is the 1-based enumeration index of its source data row among all data rows,
i.e. the position list equals the index list of exactly the rows that parse;
skipped rows therefore leave gaps instead of being compressed away. -/
theorem parse_positions_are_row_indices (t : List (List String))
    (rest : List (List (List String))) (recs : List TeamRecord)
    (h : parse_standings (t :: rest) = .ok recs) :
    recs.map TeamRecord.position = validIdx 1 (t.drop 1) := by
  obtain ⟨-, hrecs, -⟩ := (parse_standings_ok_iff t rest recs).mp h
  subst hrecs
  exact parseDataRows_map_position 1 (t.drop 1)

/-- Witness for C1 (amended) on `gapTable`. -/
theorem parse_positions_are_row_indices_witness :
    (parseDataRows 1 (gapTable.drop 1)).map TeamRecord.position
      = validIdx 1 (gapTable.drop 1) :=
  parse_positions_are_row_indices gapTable [] (parseDataRows 1 (gapTable.drop 1)) rfl

/-- Counterexample to C1 as stated: a table of 10 data rows whose fifth row
has only 9 cells yields 9 records whose positions are 1-4 and 6-10, not the
gap-free 1-9 the claim asserts. -/
theorem parse_positions_gap_cex :
    (parse_standings [[[], row11 ("T1"), row11 ("T2"), row11 ("T3"),
        row11 ("T4"), badRow9, row11 ("T6"), row11 ("T7"), row11 ("T8"),
        row11 ("T9"), row11 ("T10")]]).map
        (fun l => l.map TeamRecord.position)
      = .ok [1, 2, 3, 4, 6, 7, 8, 9, 10]
    ∧ ([1, 2, 3, 4, 6, 7, 8, 9, 10] : List Nat)
        ≠ [1, 2, 3, 4, 5, 6, 7, 8, 9] :=
  ⟨rfl, by decide⟩

/-- C2 (amended): team names of the output are unique whenever the team
cells of the successfully parsed rows are pairwise distinct; the parser does
not itself enforce uniqueness (see the counterexample). -/
theorem parse_teams_nodup_of_distinct_cells (t : List (List String))
    (rest : List (List (List String))) (recs : List TeamRecord)
    (h : parse_standings (t :: rest) = .ok recs)
    (hnd : ((validRows (t.drop 1)).map RowData.team).Nodup) :
    (teamNames recs).Nodup := by
  obtain ⟨-, hrecs, -⟩ := (parse_standings_ok_iff t rest recs).mp h
  subst hrecs
  show ((parseDataRows 1 (t.drop 1)).map TeamRecord.team).Nodup
  rw [parseDataRows_map_team]
  exact hnd

/-- Witness for C2 (amended) on `gapTable`, whose team cells are distinct. -/
theorem parse_teams_nodup_witness :
    (teamNames (parseDataRows 1 (gapTable.drop 1))).Nodup :=
  parse_teams_nodup_of_distinct_cells gapTable []
    (parseDataRows 1 (gapTable.drop 1)) rfl (by decide)

/-- Counterexample to C2 as stated: two valid rows carrying the same team
name parse into two records with equal team values, so the output's team
values are not pairwise distinct. -/
theorem parse_teams_duplicate_cex :
    (parse_standings [[[], row11 ("Frolunda"), row11 ("Frolunda")]]).map
        (fun l => l.map TeamRecord.team)
      = .ok [("Frolunda"), ("Frolunda")]
    ∧ ¬ ([("Frolunda"), ("Frolunda")] : List String).Nodup :=
  ⟨rfl, by decide⟩

/-! ### Claims about the snapshot store -/

/-- C3 (amended): a missing file, an unreadable file, and content that does
not decode as JSON all load as nothing, non-fatally (the latter two with a
logged warning); content that decodes to a JSON object loads its standings
entry non-fatally.  Content that decodes to a non-object JSON value instead
raises an uncaught AttributeError (see the counterexample). -/
theorem load_soft_conditions :
    load_existing_standings StoredContent.missing = .ok none
    ∧ load_existing_standings StoredContent.unreadable = .ok none
    ∧ load_existing_standings StoredContent.invalidJson = .ok none
    ∧ ∀ fields, load_existing_standings (.validJson (.obj fields))
        = .ok (pyGet fields ("standings")) :=
  ⟨rfl, rfl, rfl, fun _ => rfl⟩

/-- Counterexample to C3 as stated: stored content that is well-formed JSON
whose top level is an array (not an object) makes the load raise an uncaught
AttributeError — a fatal failure — rather than returning nothing. -/
theorem load_fatal_on_json_array_cex :
    load_existing_standings (.validJson (.arr [])) = .error .attributeError := rfl

/-- C9: loading what was saved returns exactly the serialized records, and
the serialization is injective (also element-wise on lists), so the loaded
sequence determines the saved records field-for-field; the timestamp and
season metadata are outside the records. -/
theorem save_load_round_trip (data : List TeamRecord)
    (timestamp season : String) :
    load_existing_standings (save_to_json data timestamp season)
      = .ok (some (.arr (data.map recordToJson)))
    ∧ Function.Injective recordToJson
    ∧ Function.Injective (List.map recordToJson) := by
  have hinj : Function.Injective recordToJson := by
    intro r1 r2 h
    cases r1
    cases r2
    simp [recordToJson] at h
    simp only [TeamRecord.mk.injEq]
    exact h
  exact ⟨rfl, hinj, List.map_injective_iff.mpr hinj⟩

end Scraper
